import Mathlib

/-!
Shallow embedding of the form-validation and request-handling core of the
remix-jokes application: the new-joke route (loader and action) and the
login route (action), together with their field validators and the
redirect-target validator.  External collaborators (the session service,
the user store and the joke store) are passed in as explicit parameters,
following the interfaces the handlers consume; store side effects are made
observable as an explicit list of create calls returned next to the
response value.  JavaScript string length is modelled by Lean string
length.
-/

/-- A value produced by the form-data boundary, i.e. by FormData.get:
a string, a File, or null when the field is absent. -/
inductive FormVal where
  | str (s : String)
  | file
  | null
deriving DecidableEq, Repr

/-- validateJokeName from the new-joke route: a message when the name is
shorter than 3 characters, nothing otherwise. -/
def validateJokeName (name : String) : Option String :=
  if name.length < 3 then some "That joke's name is too short" else none

/-- validateJokeContent from the new-joke route: a message when the content
is shorter than 10 characters, nothing otherwise. -/
def validateJokeContent (content : String) : Option String :=
  if content.length < 10 then some "That joke is too short" else none

/-- validateUsername from the login route: takes an untyped value and
produces a message when it is not a string or is shorter than 3. -/
def validateUsername (username : FormVal) : Option String :=
  match username with
  | .str s =>
      if s.length < 3 then some "Usernames must be at least 3 characters long" else none
  | _ => some "Usernames must be at least 3 characters long"

/-- validatePassword from the login route: takes an untyped value and
produces a message when it is not a string or is shorter than 6. -/
def validatePassword (password : FormVal) : Option String :=
  match password with
  | .str s =>
      if s.length < 6 then some "Passwords must be at least 6 characters long" else none
  | _ => some "Passwords must be at least 6 characters long"

/-- The allow-list of redirect targets inside validateUrl. -/
def redirectAllowList : List String := ["/jokes", "/", "https://remix.run"]

/-- validateUrl from the login route.  The source declares a default
parameter value of "/jokes" (taken when the argument is absent) and falls
back to "/jokes" whenever the argument is not an exact member of the
allow-list; a null or File value from FormData.get is never a member, so
every non-string input yields "/jokes". -/
def validateUrl (url : FormVal) : String :=
  match url with
  | .str u => if u ∈ redirectAllowList then u else "/jokes"
  | _ => "/jokes"

/-- The submitted fields echoed by the new-joke action. -/
structure JokeFields where
  name : String
  content : String
deriving DecidableEq, Repr

/-- The per-field error record built by the new-joke action. -/
structure JokeFieldErrors where
  name : Option String
  content : Option String
deriving DecidableEq, Repr

/-- The error payload of the new-joke action (serialized with status 400
by its badRequest helper). -/
structure JokeActionData where
  formError : Option String
  fieldErrors : Option JokeFieldErrors
  fields : Option JokeFields
deriving DecidableEq, Repr

/-- The form body of a new-joke submission as seen through FormData.get. -/
structure JokeForm where
  name : FormVal
  content : FormVal
deriving DecidableEq, Repr

/-- The response of the new-joke action: a 400 json payload, a redirect,
or the 401 response thrown by the session service. -/
inductive JokeResult where
  | badRequest (data : JokeActionData)
  | redirect (target : String)
  | unauthorized
deriving DecidableEq, Repr

/-- HTTP status of each new-joke action outcome. -/
def JokeResult.status : JokeResult → Nat
  | .badRequest _ => 400
  | .redirect _ => 302
  | .unauthorized => 401

/-- One call to the joke store: db.joke.create with the spread fields and
the owner id. -/
structure JokeCreateCall where
  name : String
  content : String
  jokesterId : String
deriving DecidableEq, Repr

/-- Modelled from the spec: requireUserId of the external SessionService
(its source, session.server, is not among the provided files).  Per the
spec it returns the resolved UserId and "fails with 401 if absent";
the failure short-circuits the handler before the form body is read. -/
def requireUserId (userId : Option String) : Except JokeResult String :=
  match userId with
  | none => .error .unauthorized
  | some uid => .ok uid

/-- The new-joke action.  `userId` is the session collaborator's resolved
identity, `newId` is the id the joke store assigns to the created record.
Returns the response together with the list of store-create calls
performed. -/
def jokeAction (userId : Option String) (form : JokeForm) (newId : String) :
    JokeResult × List JokeCreateCall :=
  match requireUserId userId with
  | .error e => (e, [])
  | .ok uid =>
    match form.name, form.content with
    | .str name, .str content =>
      let fieldErrors : JokeFieldErrors :=
        { name := validateJokeName name, content := validateJokeContent content }
      let fields : JokeFields := { name := name, content := content }
      if fieldErrors.name.isSome || fieldErrors.content.isSome then
        (.badRequest { formError := none, fieldErrors := some fieldErrors,
                       fields := some fields }, [])
      else
        (.redirect ("/jokes/" ++ newId),
         [{ name := fields.name, content := fields.content, jokesterId := uid }])
    | _, _ =>
      (.badRequest { formError := some "Form not submitted correctly.",
                     fieldErrors := none, fields := none }, [])

/-- The new-joke loader's outcome: the thrown 401 response or json({}). -/
inductive LoaderResult where
  | unauthorized
  | jsonEmpty
deriving DecidableEq, Repr

/-- HTTP status of each loader outcome. -/
def LoaderResult.status : LoaderResult → Nat
  | .unauthorized => 401
  | .jsonEmpty => 200

/-- The JavaScript falsy test applied by the loader to the result of
getUserId (a string or null): null and the empty string are falsy. -/
def falsyStr : Option String → Bool
  | none => true
  | some s => s.isEmpty

/-- The new-joke loader: getUserId's result is passed in; the loader
throws a 401 Unauthorized response when it is falsy and otherwise returns
an empty json payload. -/
def loader (userId : Option String) : LoaderResult :=
  if falsyStr userId then .unauthorized else .jsonEmpty

/-- A stored user identity; only the id is consumed by the handlers. -/
structure User where
  id : String
deriving DecidableEq, Repr

/-- The external collaborators of the login action: login (credential
check), db.user.findFirst by username, and register (identity
creation). -/
structure AuthEnv where
  login : String → String → Option User
  findFirst : String → Option User
  register : String → String → Option User

/-- The submitted fields echoed by the login action. -/
structure LoginFields where
  loginType : String
  username : String
  password : String
deriving DecidableEq, Repr

/-- The per-field error record built by the login action. -/
structure LoginFieldErrors where
  username : Option String
  password : Option String
deriving DecidableEq, Repr

/-- The error payload of the login action (serialized with status 400 by
its badRequest helper). -/
structure LoginActionData where
  formError : Option String
  fieldErrors : Option LoginFieldErrors
  fields : Option LoginFields
deriving DecidableEq, Repr

/-- The form body of a login submission as seen through FormData.get. -/
structure LoginForm where
  loginType : FormVal
  username : FormVal
  password : FormVal
  redirectTo : FormVal
deriving DecidableEq, Repr

/-- The response of the login action: a 400 json payload, or the session
cookie plus redirect issued by createUserSession. -/
inductive AuthResult where
  | badRequest (data : LoginActionData)
  | session (userId : String) (redirectTo : String)
deriving DecidableEq, Repr

/-- HTTP status of each login action outcome. -/
def AuthResult.status : AuthResult → Nat
  | .badRequest _ => 400
  | .session _ _ => 302

/-- The login action.  Returns the response together with the list of
identity-creation calls (register's arguments) performed. -/
def loginAction (env : AuthEnv) (form : LoginForm) :
    AuthResult × List (String × String) :=
  let redirectTo := validateUrl form.redirectTo
  match form.loginType, form.username, form.password with
  | .str loginType, .str username, .str password =>
    let fields : LoginFields :=
      { loginType := loginType, username := username, password := password }
    let fieldErrors : LoginFieldErrors :=
      { username := validateUsername (.str username),
        password := validatePassword (.str password) }
    if fieldErrors.username.isSome || fieldErrors.password.isSome then
      (.badRequest { formError := none, fieldErrors := some fieldErrors,
                     fields := some fields }, [])
    else if loginType = "login" then
      match env.login username password with
      | none =>
        (.badRequest { formError := some "Username/Password combination is incorrect.",
                       fieldErrors := none, fields := some fields }, [])
      | some user => (.session user.id redirectTo, [])
    else if loginType = "register" then
      match env.findFirst username with
      | some _ =>
        (.badRequest { formError := some ("User with username " ++ username ++ " already exists"),
                       fieldErrors := none, fields := some fields }, [])
      | none =>
        match env.register username password with
        | none =>
          (.badRequest { formError := some "Not implemented", fieldErrors := none,
                         fields := some fields }, [(username, password)])
        | some user => (.session user.id redirectTo, [(username, password)])
    else
      (.badRequest { formError := some "Login type invalid", fieldErrors := none,
                     fields := some fields }, [])
  | _, _, _ =>
    (.badRequest { formError := some "Form not submitted correctly.",
                   fieldErrors := none, fields := none }, [])

/-- An environment in which the credential check never matches and no
user is stored. -/
def envLoginFails : AuthEnv :=
  { login := fun _ _ => none, findFirst := fun _ => none, register := fun _ _ => none }

/-- An environment in which every username lookup finds a stored user. -/
def envUserExists : AuthEnv :=
  { login := fun _ _ => none, findFirst := fun _ => some { id := "u-bob" },
    register := fun _ _ => none }

/-- A login-route form body whose three credential fields are strings. -/
def mkLoginForm (lt u p : String) (r : FormVal) : LoginForm :=
  { loginType := FormVal.str lt, username := FormVal.str u,
    password := FormVal.str p, redirectTo := r }

/-- Claim C1: for every input to the redirect-target validator validateUrl —
including an absent value, a File, and arbitrary attacker-controlled
strings — the result is a member of the fixed allow-list; any input that is
not an exact match of an allow-list member yields the default "/jokes", and
an absent input yields "/jokes". -/
theorem validateUrl_allowlisted (x : FormVal) :
    validateUrl x ∈ redirectAllowList ∧
    (∀ s, x = FormVal.str s → s ∉ redirectAllowList → validateUrl x = "/jokes") ∧
    validateUrl FormVal.null = "/jokes" ∧ validateUrl FormVal.file = "/jokes" := by
  refine ⟨?_, ?_, rfl, rfl⟩
  · cases x with
    | str s =>
        by_cases h : s ∈ redirectAllowList
        · have hv : validateUrl (FormVal.str s) = s := by simp [validateUrl, h]
          rw [hv]; exact h
        · have hv : validateUrl (FormVal.str s) = "/jokes" := by simp [validateUrl, h]
          rw [hv]; decide
    | file => decide
    | null => decide
  · rintro s rfl hs
    simp [validateUrl, hs]

/-- Witness for C1: the attacker-controlled string of the spec scenario
falls back to "/jokes". -/
theorem validateUrl_allowlisted_witness :
    validateUrl (FormVal.str "https://evil.example") = "/jokes" :=
  (validateUrl_allowlisted (FormVal.str "https://evil.example")).2.1
    "https://evil.example" rfl (by decide)

/-- Claim C7: validateJokeName returns a non-empty message exactly when the
name is shorter than 3, and validateJokeContent returns a non-empty message
exactly when the content is shorter than 10. -/
theorem jokeFieldValidators_length (name content : String) :
    ((validateJokeName name).isSome ↔ name.length < 3) ∧
    validateJokeName name ≠ some "" ∧
    ((validateJokeContent content).isSome ↔ content.length < 10) ∧
    validateJokeContent content ≠ some "" := by
  refine ⟨?_, ?_, ?_, ?_⟩
  · by_cases h : name.length < 3 <;> simp [validateJokeName, h]
  · by_cases h : name.length < 3 <;> simp [validateJokeName, h]
  · by_cases h : content.length < 10 <;> simp [validateJokeContent, h]
  · by_cases h : content.length < 10 <;> simp [validateJokeContent, h]

/-- Claim C8: validateUsername produces a non-empty message exactly on
non-string input or a string shorter than 3; validatePassword produces a
non-empty message exactly on non-string input or a string shorter than 6;
both are plain total functions. -/
theorem loginFieldValidators_spec (s p : String) :
    ((validateUsername (FormVal.str s)).isSome ↔ s.length < 3) ∧
    (validateUsername FormVal.null).isSome = true ∧
    (validateUsername FormVal.file).isSome = true ∧
    validateUsername (FormVal.str s) ≠ some "" ∧
    validateUsername FormVal.null ≠ some "" ∧
    ((validatePassword (FormVal.str p)).isSome ↔ p.length < 6) ∧
    (validatePassword FormVal.null).isSome = true ∧
    (validatePassword FormVal.file).isSome = true ∧
    validatePassword (FormVal.str p) ≠ some "" ∧
    validatePassword FormVal.null ≠ some "" := by
  refine ⟨?_, by decide, by decide, ?_, by decide, ?_, by decide, by decide, ?_, by decide⟩
  · by_cases h : s.length < 3 <;> simp [validateUsername, h]
  · by_cases h : s.length < 3 <;> simp [validateUsername, h]
  · by_cases h : p.length < 6 <;> simp [validatePassword, h]
  · by_cases h : p.length < 6 <;> simp [validatePassword, h]

/-- Claim C5: a joke-creation request with no resolved user identity is
answered by the 401 failure of the session collaborator, independently of
the form body (no field is inspected), and with zero store-create calls. -/
theorem jokeAction_unauthenticated (form : JokeForm) (newId : String) :
    jokeAction none form newId = (JokeResult.unauthorized, []) ∧
    (jokeAction none form newId).1.status = 401 :=
  ⟨rfl, rfl⟩

/-- Claim C10: the new-joke loader itself answers 401 whenever no user
session is present — so the creation page, not only the submission,
requires authentication — and returns an empty json payload whenever a
(nonempty) user id is present. -/
theorem loader_requires_user (userId : Option String) :
    (userId = none →
      loader userId = LoaderResult.unauthorized ∧ (loader userId).status = 401) ∧
    (∀ uid, userId = some uid → uid ≠ "" →
      loader userId = LoaderResult.jsonEmpty ∧ (loader userId).status = 200) := by
  constructor
  · rintro rfl; exact ⟨rfl, rfl⟩
  · rintro uid rfl h
    have hf : falsyStr (some uid) = false := by
      have he : uid.isEmpty = false := by
        rw [Bool.eq_false_iff]
        intro hc
        exact h ((String.isEmpty_iff uid).mp hc)
      simp [falsyStr, he]
    constructor <;> simp [loader, hf, LoaderResult.status]

/-- Witness for C10: the loader rejects the absent session with 401 and
accepts a concrete user id. -/
theorem loader_requires_user_witness :
    loader none = LoaderResult.unauthorized ∧ loader (some "u1") = LoaderResult.jsonEmpty :=
  ⟨((loader_requires_user none).1 rfl).1,
   ((loader_requires_user (some "u1")).2 "u1" rfl (by decide)).1⟩

/-- Claim C2: on the success path (authenticated, both fields strings,
name at least 3 and content at least 10 characters) the joke action
performs exactly one store-create call, with the submitted name and
content and the authenticated user id as owner, and redirects to the new
record; on every 400 rejection path it performs zero store-create calls. -/
theorem jokeAction_create_spec (uid name content newId : String)
    (hn : 3 ≤ name.length) (hc : 10 ≤ content.length) :
    jokeAction (some uid) { name := FormVal.str name, content := FormVal.str content } newId =
      (JokeResult.redirect ("/jokes/" ++ newId),
       [{ name := name, content := content, jokesterId := uid }]) ∧
    ∀ form : JokeForm, (jokeAction (some uid) form newId).1.status = 400 →
      (jokeAction (some uid) form newId).2 = [] := by
  constructor
  · have h1 : validateJokeName name = none := by
      simp [validateJokeName]; omega
    have h2 : validateJokeContent content = none := by
      simp [validateJokeContent]; omega
    simp [jokeAction, requireUserId, h1, h2]
  · rintro ⟨fn, fc⟩ h400
    cases fn with
    | str s =>
      cases fc with
      | str t =>
        cases hv : ((validateJokeName s).isSome || (validateJokeContent t).isSome) <;>
          simp [jokeAction, requireUserId, hv, JokeResult.status] at h400 ⊢
      | file => simp [jokeAction, requireUserId]
      | null => simp [jokeAction, requireUserId]
    | file => simp [jokeAction, requireUserId]
    | null => simp [jokeAction, requireUserId]

/-- Witness for C2: the spec scenario name "abc", content "1234567890"
creates exactly one joke for the user and redirects to its id. -/
theorem jokeAction_create_spec_witness :
    jokeAction (some "u1") { name := FormVal.str "abc", content := FormVal.str "1234567890" } "7" =
      (JokeResult.redirect ("/jokes/" ++ "7"),
       [{ name := "abc", content := "1234567890", jokesterId := "u1" }]) :=
  (jokeAction_create_spec "u1" "abc" "1234567890" "7" (by decide) (by decide)).1

/-- Claim C6: an authenticated submission whose fields are strings but
fail at least one validator is answered with a 400 payload holding exactly
the two validators' outputs as fieldErrors (an entry is set iff that
validator failed) together with the echoed fields, and no joke is
persisted. -/
theorem jokeAction_rejects_invalid_fields (uid name content newId : String)
    (h : (validateJokeName name).isSome ∨ (validateJokeContent content).isSome) :
    jokeAction (some uid) { name := FormVal.str name, content := FormVal.str content } newId =
      (JokeResult.badRequest
        { formError := none,
          fieldErrors := some { name := validateJokeName name,
                                content := validateJokeContent content },
          fields := some { name := name, content := content } }, []) ∧
    (jokeAction (some uid)
      { name := FormVal.str name, content := FormVal.str content } newId).1.status = 400 := by
  have hb : ((validateJokeName name).isSome || (validateJokeContent content).isSome) = true := by
    rcases h with h | h <;> simp [h]
  constructor <;> simp [jokeAction, requireUserId, hb, JokeResult.status]

/-- Witness for C6: the spec scenario name "ab", content "1234567890"
yields 400 with fieldErrors.name set, fieldErrors.content unset, the
fields echoed, and no store-create call. -/
theorem jokeAction_rejects_invalid_fields_witness :
    jokeAction (some "u1") { name := FormVal.str "ab", content := FormVal.str "1234567890" } "7" =
      (JokeResult.badRequest
        { formError := none,
          fieldErrors := some { name := some "That joke's name is too short", content := none },
          fields := some { name := "ab", content := "1234567890" } }, []) := by
  have h := (jokeAction_rejects_invalid_fields "u1" "ab" "1234567890" "7" (Or.inl (by decide))).1
  simpa using h

/-- Claim C3: a login submission passing field validation is answered, when
the credential check finds no user, by a 400 payload carrying the single
generic form-level error (the same constant message whatever the reason the
check failed) and no field errors; when the credential check returns a
user, by a session for that user id and a redirect to the validated
target. -/
theorem loginAction_login_spec (env : AuthEnv) (u p : String) (r : FormVal)
    (hu : validateUsername (FormVal.str u) = none)
    (hp : validatePassword (FormVal.str p) = none) :
    (env.login u p = none →
      loginAction env (mkLoginForm "login" u p r) =
        (AuthResult.badRequest
          { formError := some "Username/Password combination is incorrect.",
            fieldErrors := none,
            fields := some { loginType := "login", username := u, password := p } }, []) ∧
      (loginAction env (mkLoginForm "login" u p r)).1.status = 400) ∧
    (∀ user, env.login u p = some user →
      loginAction env (mkLoginForm "login" u p r) =
        (AuthResult.session user.id (validateUrl r), [])) := by
  constructor
  · intro hl
    constructor <;> simp [loginAction, mkLoginForm, hu, hp, hl, AuthResult.status]
  · intro user hl
    simp [loginAction, mkLoginForm, hu, hp, hl]

/-- Witness for C3: the spec scenario, a valid-shaped submission for an
unknown user, yields 400 with the generic message and no field errors. -/
theorem loginAction_login_spec_witness :
    loginAction envLoginFails (mkLoginForm "login" "nouser" "whatever" FormVal.null) =
      (AuthResult.badRequest
        { formError := some "Username/Password combination is incorrect.",
          fieldErrors := none,
          fields := some { loginType := "login", username := "nouser",
                           password := "whatever" } }, []) :=
  ((loginAction_login_spec envLoginFails "nouser" "whatever" FormVal.null
      (by decide) (by decide)).1 rfl).1

/-- Claim C4: a register submission passing field validation is answered,
when a user with that username already exists, by a 400 payload whose
form-level error mentions "already exists", with no identity-creation
call; when no such user exists, the identity creation is attempted, a
returned identity yields a session and redirect, and a creation that
yields no identity is answered by the 400 "Not implemented" form-level
error. -/
theorem loginAction_register_spec (env : AuthEnv) (u p : String) (r : FormVal)
    (hu : validateUsername (FormVal.str u) = none)
    (hp : validatePassword (FormVal.str p) = none) :
    (∀ user, env.findFirst u = some user →
      loginAction env (mkLoginForm "register" u p r) =
        (AuthResult.badRequest
          { formError := some ("User with username " ++ u ++ " already exists"),
            fieldErrors := none,
            fields := some { loginType := "register", username := u, password := p } }, []) ∧
      (loginAction env (mkLoginForm "register" u p r)).1.status = 400) ∧
    (env.findFirst u = none →
      (∀ user, env.register u p = some user →
        loginAction env (mkLoginForm "register" u p r) =
          (AuthResult.session user.id (validateUrl r), [(u, p)])) ∧
      (env.register u p = none →
        loginAction env (mkLoginForm "register" u p r) =
          (AuthResult.badRequest
            { formError := some "Not implemented", fieldErrors := none,
              fields := some { loginType := "register", username := u, password := p } },
           [(u, p)]) ∧
        (loginAction env (mkLoginForm "register" u p r)).1.status = 400)) := by
  constructor
  · intro user hf
    constructor <;> simp [loginAction, mkLoginForm, hu, hp, hf, AuthResult.status]
  · intro hf
    constructor
    · intro user hr
      simp [loginAction, mkLoginForm, hu, hp, hf, hr]
    · intro hr
      constructor <;> simp [loginAction, mkLoginForm, hu, hp, hf, hr, AuthResult.status]

/-- Witness for C4: the spec scenario, registering "bob" while "bob" is
already stored, yields 400 with the "already exists" message and no
identity-creation call. -/
theorem loginAction_register_spec_witness :
    loginAction envUserExists (mkLoginForm "register" "bob" "secret1" FormVal.null) =
      (AuthResult.badRequest
        { formError := some ("User with username " ++ "bob" ++ " already exists"),
          fieldErrors := none,
          fields := some { loginType := "register", username := "bob",
                           password := "secret1" } }, []) :=
  ((loginAction_register_spec envUserExists "bob" "secret1" FormVal.null
      (by decide) (by decide)).1 { id := "u-bob" } rfl).1

/-- Claim C9: every login submission rejected by field validation is
answered with a payload whose echoed fields carry the originally submitted
password verbatim, next to the loginType and username. -/
theorem loginAction_echoes_password (env : AuthEnv) (lt u p : String) (r : FormVal)
    (h : (validateUsername (FormVal.str u)).isSome ∨ (validatePassword (FormVal.str p)).isSome) :
    loginAction env (mkLoginForm lt u p r) =
      (AuthResult.badRequest
        { formError := none,
          fieldErrors := some { username := validateUsername (FormVal.str u),
                                password := validatePassword (FormVal.str p) },
          fields := some { loginType := lt, username := u, password := p } }, []) := by
  have hb : ((validateUsername (FormVal.str u)).isSome
      || (validatePassword (FormVal.str p)).isSome) = true := by
    rcases h with h | h <;> simp [h]
  simp [loginAction, mkLoginForm, hb]

/-- Witness for C9: a too-short username is rejected and the submitted
password "whatever" comes back verbatim in the echoed fields. -/
theorem loginAction_echoes_password_witness :
    loginAction envLoginFails (mkLoginForm "login" "ab" "whatever" FormVal.null) =
      (AuthResult.badRequest
        { formError := none,
          fieldErrors := some { username := validateUsername (FormVal.str "ab"),
                                password := validatePassword (FormVal.str "whatever") },
          fields := some { loginType := "login", username := "ab",
                           password := "whatever" } }, []) :=
  loginAction_echoes_password envLoginFails "login" "ab" "whatever" FormVal.null
    (Or.inl (by decide))
